import Mathlib

/-!
Verification of the synergyAlphaBackend relay server (src/server.js).

The development shallowly embeds the request handlers of `server.js`:
pure Lean functions model each Express route handler, with the upstream
`fetch` modelled as an explicit oracle `Fetcher` (invocation index and URL
in, transport result out) and the handler outcome recording both the HTTP
response and the ordered list of upstream URLs actually requested.

External dependencies are modelled as follows.
* `JSON.parse` / `JSON.stringify` (ECMA-404): a fueled recursive-descent
  parser `jsonParse` and a serializer `stringify` over an inductive `Json`
  type. Numbers are restricted to integer literals (no fraction/exponent)
  and `\u` escapes do not combine surrogate pairs; no claim under
  verification depends on fractional numeric payloads or on exotic string
  escapes. The parse-error message text of the JavaScript engine is abstracted
  by the constant `jsonParseErrMsg`; claims depend only on the fixed parts
  of the error strings, never on the engine-specific fragment.
* `Date` (local clock assumed to coincide with UTC, as on the deployment
  host): calendar dates `JsDate` with the 0-based months of JavaScript and
  `setMonth` day-overflow semantics (`jsSetMonthPlus3`).
* Express routing: `pathParam` models the `/:symbol` route patterns
  (a path parameter matches exactly one non-empty segment; an optional
  trailing slash is tolerated, as with the Express default of strict:false).
-/

/-- Left brace character, written via its code point. -/
def lbraceC : Char := Char.ofNat 123

/-- Right brace character, written via its code point. -/
def rbraceC : Char := Char.ofNat 125

/-- A JSON value as produced by `JSON.parse`: null, booleans, (integer)
numbers, strings, arrays and objects. Object members keep their textual
order; duplicate keys are resolved last-wins at lookup time, as in JS. -/
inductive Json where
  | null
  | bool (b : Bool)
  | num (n : Int)
  | str (s : String)
  | arr (elems : List Json)
  | obj (members : List (String × Json))
deriving Repr, Inhabited

/-- Whitespace characters accepted between JSON tokens (ECMA-404). -/
def jsonWs (c : Char) : Bool :=
  c = ' ' || c = '\n' || c = '\r' || c = '\t'

/-- Drop leading JSON whitespace. -/
def dropWs : List Char → List Char
  | [] => []
  | c :: cs => if jsonWs c then dropWs cs else c :: cs

/-- Decimal digit test on a character. -/
def isDig (c : Char) : Bool := '0' ≤ c && c ≤ '9'

/-- Value of a hexadecimal digit, if the character is one. -/
def hexDigitVal (c : Char) : Option Nat :=
  if '0' ≤ c && c ≤ '9' then some (c.toNat - 48)
  else if 'a' ≤ c && c ≤ 'f' then some (c.toNat - 87)
  else if 'A' ≤ c && c ≤ 'F' then some (c.toNat - 55)
  else none

/-- Decode one backslash escape character of a JSON string literal
(the single-character escapes; `\u` is handled separately). -/
def escCharVal (c : Char) : Option Char :=
  if c = '"' then some '"'
  else if c = '\\' then some '\\'
  else if c = '/' then some '/'
  else if c = 'b' then some (Char.ofNat 8)
  else if c = 'f' then some (Char.ofNat 12)
  else if c = 'n' then some '\n'
  else if c = 'r' then some (Char.ofNat 13)
  else if c = 't' then some '\t'
  else none

/-- Parse the body of a JSON string literal (the opening quote already
consumed), returning the decoded string and the remaining input. Raw
control characters are rejected, as `JSON.parse` does. -/
def strBody : List Char → Option (String × List Char)
  | [] => none
  | '"' :: cs => some ("", cs)
  | '\\' :: 'u' :: h1 :: h2 :: h3 :: h4 :: cs3 => do
    let v1 ← hexDigitVal h1
    let v2 ← hexDigitVal h2
    let v3 ← hexDigitVal h3
    let v4 ← hexDigitVal h4
    let code := ((v1 * 16 + v2) * 16 + v3) * 16 + v4
    let (s, rest) ← strBody cs3
    some (String.mk (Char.ofNat code :: s.data), rest)
  | '\\' :: e :: cs2 => do
    let ch ← escCharVal e
    let (s, rest) ← strBody cs2
    some (String.mk (ch :: s.data), rest)
  | '\\' :: [] => none
  | c :: cs =>
    if c.toNat < 32 then none
    else do
      let (s, rest) ← strBody cs
      some (String.mk (c :: s.data), rest)

/-- Numeric value of a list of decimal digit characters. -/
def digitsToNat (ds : List Char) : Nat :=
  ds.foldl (fun a c => a * 10 + (c.toNat - 48)) 0

/-- Split the longest prefix of decimal digits off the input. -/
def spanDigits : List Char → List Char × List Char
  | [] => ([], [])
  | c :: cs =>
    if isDig c then
      let (ds, r) := spanDigits cs
      (c :: ds, r)
    else ([], c :: cs)

/-- Parse a JSON integer literal (optional minus sign; no leading zeros;
fractional and exponent forms are rejected, see the file header). -/
def numLit (input : List Char) : Option (Int × List Char) :=
  let (neg, cs) :=
    match input with
    | '-' :: rest => (true, rest)
    | _ => (false, input)
  match spanDigits cs with
  | ([], _) => none
  | (d :: ds, rest) =>
    if d = '0' && ds ≠ [] then none
    else
      match rest with
      | '.' :: _ => none
      | 'e' :: _ => none
      | 'E' :: _ => none
      | _ =>
        let n : Int := Int.ofNat (digitsToNat (d :: ds))
        some (if neg then -n else n, rest)

mutual

/-- Parse one JSON value from the input (fueled recursive descent). -/
def jVal : Nat → List Char → Option (Json × List Char)
  | 0, _ => none
  | fuel + 1, input =>
    match dropWs input with
    | [] => none
    | c :: rest =>
      if c = '"' then
        match strBody rest with
        | some (s, r) => some (Json.str s, r)
        | none => none
      else if c = lbraceC then jMembers fuel true rest
      else if c = '[' then jElems fuel true rest
      else if c = 't' then
        match rest with
        | 'r' :: 'u' :: 'e' :: r => some (Json.bool true, r)
        | _ => none
      else if c = 'f' then
        match rest with
        | 'a' :: 'l' :: 's' :: 'e' :: r => some (Json.bool false, r)
        | _ => none
      else if c = 'n' then
        match rest with
        | 'u' :: 'l' :: 'l' :: r => some (Json.null, r)
        | _ => none
      else if c = '-' || isDig c then
        match numLit (c :: rest) with
        | some (n, r) => some (Json.num n, r)
        | none => none
      else none

/-- Parse the elements of a JSON array after the opening bracket; `first`
records whether no element has been consumed yet (so that `[]` is legal
but `[1,]` is not). Returns the array value and the remaining input. -/
def jElems : Nat → Bool → List Char → Option (Json × List Char)
  | 0, _, _ => none
  | fuel + 1, first, input =>
    match dropWs input with
    | ']' :: r => if first then some (Json.arr [], r) else none
    | cs => do
      let (v, cs2) ← jVal fuel cs
      match dropWs cs2 with
      | ']' :: r => some (Json.arr [v], r)
      | ',' :: cs3 => do
        let (tail, r) ← jElems fuel false cs3
        match tail with
        | Json.arr vs => some (Json.arr (v :: vs), r)
        | _ => none
      | _ => none

/-- Parse the members of a JSON object after the opening brace; `first` as
in `jElems`. Returns the object value and the remaining input. -/
def jMembers : Nat → Bool → List Char → Option (Json × List Char)
  | 0, _, _ => none
  | fuel + 1, first, input =>
    match dropWs input with
    | c :: r =>
      if c = rbraceC then
        if first then some (Json.obj [], r) else none
      else if c = '"' then do
        let (k, cs2) ← strBody r
        match dropWs cs2 with
        | ':' :: cs3 => do
          let (v, cs4) ← jVal fuel cs3
          match dropWs cs4 with
          | c2 :: r2 =>
            if c2 = rbraceC then some (Json.obj [(k, v)], r2)
            else if c2 = ',' then do
              let (tail, r3) ← jMembers fuel false r2
              match tail with
              | Json.obj ms => some (Json.obj ((k, v) :: ms), r3)
              | _ => none
            else none
          | [] => none
        | _ => none
      else none
    | [] => none

end

/-- Model of `JSON.parse`: parse a complete JSON text (leading and
trailing whitespace allowed), or fail. -/
def jsonParse (s : String) : Option Json :=
  match jVal (2 * s.data.length + 8) s.data with
  | some (v, rest) => if dropWs rest = [] then some v else none
  | none => none

/-- Escape a string for JSON output (quote and backslash; the claims under
verification never depend on control-character escaping). -/
def jsonEscape (s : String) : String :=
  String.mk (s.data.foldr
    (fun c acc => if c = '"' || c = '\\' then '\\' :: c :: acc else c :: acc) [])

mutual

/-- Model of `JSON.stringify` on a parsed value. -/
def stringify : Json → String
  | Json.null => "null"
  | Json.bool true => "true"
  | Json.bool false => "false"
  | Json.num n => toString n
  | Json.str s => "\"" ++ jsonEscape s ++ "\""
  | Json.arr es => "[" ++ stringifyList es ++ "]"
  | Json.obj ms => "\x7b" ++ stringifyMembers ms ++ "\x7d"

/-- Comma-separated serialization of array elements. -/
def stringifyList : List Json → String
  | [] => ""
  | [v] => stringify v
  | v :: vs => stringify v ++ "," ++ stringifyList vs

/-- Comma-separated serialization of object members. -/
def stringifyMembers : List (String × Json) → String
  | [] => ""
  | [(k, v)] => "\"" ++ jsonEscape k ++ "\":" ++ stringify v
  | (k, v) :: ms => "\"" ++ jsonEscape k ++ "\":" ++ stringify v ++ "," ++ stringifyMembers ms

end

/-- Last-wins member lookup, as JS object construction from duplicate JSON
keys keeps the last occurrence. -/
def lookupField : List (String × Json) → String → Option Json
  | [], _ => none
  | (k, v) :: rest, key =>
    match lookupField rest key with
    | some w => some w
    | none => if k = key then some v else none

/-- Field access on a response body: `some` on a matching object member,
`none` (JS `undefined`) otherwise. Used to state claims about envelopes. -/
def getField (j : Json) (k : String) : Option Json :=
  match j with
  | Json.obj ms => lookupField ms k
  | _ => none

/-- Model of JS property access `o.k` on a parsed JSON value: throws a
`TypeError` on `null` (as JS does), otherwise yields the member or
`undefined` (`none`). -/
def jsGet (j : Json) (k : String) : Except String (Option Json) :=
  match j with
  | Json.null => Except.error ("Cannot read properties of null (reading " ++ k ++ ")")
  | Json.obj ms => Except.ok (lookupField ms k)
  | _ => Except.ok none

/-- JS truthiness of a JSON value. -/
def truthy : Json → Bool
  | Json.null => false
  | Json.bool b => b
  | Json.num n => n ≠ 0
  | Json.str s => s ≠ ""
  | Json.arr _ => true
  | Json.obj _ => true

/-- JS truthiness of a possibly-`undefined` value. -/
def truthyOpt : Option Json → Bool
  | none => false
  | some j => truthy j

/-- JS truthiness of an optional string parameter (`undefined` and the
empty string are falsy; every other string is truthy). -/
def truthyStr : Option String → Bool
  | none => false
  | some s => s ≠ ""

/-- Model of `Array.isArray` applied to a possibly-`undefined` value. -/
def isArrayOpt : Option Json → Bool
  | some (Json.arr _) => true
  | _ => false

/-- A value has array-typed field `k`: property access succeeds and yields
an array. This is exactly the condition under which the handlers'
shape validations pass. -/
def hasArrayField (j : Json) (k : String) : Bool :=
  match jsGet j k with
  | Except.ok (some (Json.arr _)) => true
  | _ => false

/-- Model of `s.substring(0, n)` (Lean characters standing for the
UTF-16 code units of the source; no claim depends on astral planes). -/
def strTake (s : String) (n : Nat) : String :=
  String.mk (s.data.take n)

/-! ### Date model (server.js lines 306-311) -/

/-- A calendar date as held by a JS `Date`: `month` is 0-based, as
returned by `getMonth`; `day` is 1-based. -/
structure JsDate where
  year : Nat
  month : Nat
  day : Nat
deriving Repr, DecidableEq

/-- Gregorian leap-year test. -/
def isLeap (y : Nat) : Bool := y % 4 = 0 && (y % 100 ≠ 0 || y % 400 = 0)

/-- Number of days of 0-based month `m` of year `y`. -/
def daysInMonth (y m : Nat) : Nat :=
  if m = 1 then (if isLeap y then 29 else 28)
  else if m = 3 || m = 5 || m = 8 || m = 10 then 30
  else 31

/-- Model of `d.setMonth(d.getMonth() + 3)` on a JS `Date` holding `d`:
the month index is increased by 3 (rolling the year), and a day-of-month
that does not exist in the target month overflows into the following
month, as JS `Date` normalization does (e.g. Jan 31 becomes May 1). -/
def jsSetMonthPlus3 (d : JsDate) : JsDate :=
  let m := d.month + 3
  let y := d.year + m / 12
  let m0 := m % 12
  let dim := daysInMonth y m0
  if d.day ≤ dim then ⟨y, m0, d.day⟩
  else
    let m2 := m0 + 1
    ⟨y + m2 / 12, m2 % 12, d.day - dim⟩

/-- Modelled from the spec: the date "exactly three calendar months
later", read as same day-of-month three months ahead, clamped to the
last day of the target month when that day does not exist there. Used
only to compare the date-window wording of the spec against the code. -/
def specAddThreeMonths (d : JsDate) : JsDate :=
  let m := d.month + 3
  let y := d.year + m / 12
  let m0 := m % 12
  ⟨y, m0, min d.day (daysInMonth y m0)⟩

/-- Two-digit zero padding, as in ISO date components. -/
def pad2 (n : Nat) : String := if n < 10 then ("0") ++ toString n else toString n

/-- Four-digit zero padding for the year. -/
def pad4 (n : Nat) : String :=
  if n < 10 then ("000") ++ toString n
  else if n < 100 then ("00") ++ toString n
  else if n < 1000 then ("0") ++ toString n
  else toString n

/-- Model of `date.toISOString().split('T')[0]`: the `yyyy-mm-dd` date
part (the deployment clock is UTC, see the file header). -/
def isoDateStr (d : JsDate) : String :=
  pad4 d.year ++ "-" ++ pad2 (d.month + 1) ++ "-" ++ pad2 d.day

/-! ### Percent encoding (model of `encodeURIComponent`) -/

/-- Uppercase hexadecimal digit of a value below 16. -/
def hexUpper (n : Nat) : Char :=
  if n < 10 then Char.ofNat (48 + n) else Char.ofNat (55 + n)

/-- Percent-encoding of one byte. -/
def percentByte (b : Nat) : String :=
  "%" ++ String.mk [hexUpper (b / 16), hexUpper (b % 16)]

/-- Characters `encodeURIComponent` leaves unencoded. -/
def uriUnreserved (c : Char) : Bool :=
  ('A' ≤ c && c ≤ 'Z') || ('a' ≤ c && c ≤ 'z') || ('0' ≤ c && c ≤ '9') ||
  c = '-' || c = '_' || c = '.' || c = '!' || c = '~' || c = '*' ||
  c = Char.ofNat 39 || c = '(' || c = ')'

/-- UTF-8 bytes of a code point. -/
def utf8Bytes (n : Nat) : List Nat :=
  if n < 128 then [n]
  else if n < 2048 then [192 + n / 64, 128 + n % 64]
  else if n < 65536 then [224 + n / 4096, 128 + (n / 64) % 64, 128 + n % 64]
  else [240 + n / 262144, 128 + (n / 4096) % 64, 128 + (n / 64) % 64, 128 + n % 64]

/-- Model of `encodeURIComponent`. -/
def encodeURIComponent (s : String) : String :=
  s.data.foldr
    (fun c acc =>
      (if uriUnreserved c then String.singleton c
       else String.join ((utf8Bytes c.toNat).map percentByte)) ++ acc) ("")

/-! ### Upstream transport model -/

/-- Base URL of the financial-data provider (server.js line 9, with the
environment override absent). -/
def SYNERGY_API_URL : String := "https://synergyalphaapi.onrender.com"

/-- An upstream HTTP response: status code and raw body text. -/
structure UpstreamResponse where
  status : Nat
  body : String
deriving Repr, DecidableEq

/-- Model of node-fetch `response.ok`: status in the 2xx range. -/
def UpstreamResponse.isOk (r : UpstreamResponse) : Bool :=
  200 ≤ r.status && r.status < 300

/-- Result of one `fetch` invocation: a response, or a rejected promise
(transport failure) carrying the error message. -/
inductive FetchResult where
  | success (r : UpstreamResponse)
  | netError (msg : String)
deriving Repr

/-- The upstream oracle: result of the `i`-th fetch invocation of a
handler, given the requested URL. -/
def Fetcher := Nat → String → FetchResult

/-- An HTTP response emitted to the caller. -/
structure HttpResponse where
  status : Nat
  body : Json
deriving Repr

/-- Observable outcome of one handler run: the response sent, and the
ordered list of upstream URLs that were fetched. -/
structure Outcome where
  resp : HttpResponse
  calls : List String
deriving Repr

/-- The uniform error envelope built throughout server.js:
`res.status(s).json(.. error .. details .. timestamp ..)`. -/
def errBody (error details ts : String) : Json :=
  Json.obj [("error", Json.str error), ("details", Json.str details), ("timestamp", Json.str ts)]

/-- Abstract engine-specific fragment of a `JSON.parse` error message
(see the file header). -/
def jsonParseErrMsg : String := "Unexpected token in JSON"

/-! ### Route handlers (server.js) -/

/-- URL built by the search handler (server.js line 68). -/
def searchUrl (q lim pg : String) : String :=
  SYNERGY_API_URL ++ "/search?query=" ++ encodeURIComponent q ++ "&limit=" ++ lim ++ "&page=" ++ pg

/-- The 500 failure envelope of the catch branch of the search handler
(server.js lines 95-102). -/
def searchFailure (details ts : String) : HttpResponse :=
  ⟨500, errBody ("Failed to fetch search data") details ts⟩

/-- Handler of `GET /api/search` (server.js lines 59-103): validate
`query`, fetch the upstream search URL once, read the body as text,
parse it as JSON, reject non-2xx statuses and payloads without a
`results` array, else relay the payload unchanged. -/
def apiSearch (query : Option String) (lim pg : String) (fetch : Fetcher) (ts : String) : Outcome :=
  if truthyStr query = false then
    ⟨⟨400, Json.obj [("error", Json.str ("Query parameter is required"))]⟩, []⟩
  else
    let url := searchUrl (query.getD ("")) lim pg
    match fetch 0 url with
    | FetchResult.netError m => ⟨searchFailure m ts, [url]⟩
    | FetchResult.success r =>
      match jsonParse r.body with
      | none =>
        ⟨searchFailure ("Failed to parse JSON: " ++ jsonParseErrMsg ++ ". Raw response: " ++ strTake r.body 200) ts, [url]⟩
      | some responseData =>
        if r.isOk = false then
          ⟨searchFailure ("Synergy API error (" ++ toString r.status ++ "): " ++ stringify responseData) ts, [url]⟩
        else
          match jsGet responseData ("results") with
          | Except.error m => ⟨searchFailure m ts, [url]⟩
          | Except.ok results =>
            if truthyOpt results = false || isArrayOpt results = false then
              ⟨searchFailure ("Invalid search data structure returned from API") ts, [url]⟩
            else ⟨⟨200, responseData⟩, [url]⟩

/-- URL built by the balance-sheet handler (server.js line 119). -/
def balanceSheetUrl (cleanSymbol period : String) : String :=
  SYNERGY_API_URL ++ "/companies/" ++ cleanSymbol ++ "/balance-sheet?period=" ++ period

/-- Handler of `GET /api/balance-sheet/:symbol` (server.js lines
107-151): validate `symbol`, uppercase and trim it, fetch once, parse
the body, throw on parse failure or non-2xx (both reach the catch
branch as a 500), else relay the payload. -/
def apiBalanceSheet (symbol period : String) (fetch : Fetcher) (ts : String) : Outcome :=
  if symbol = "" then
    ⟨⟨400, Json.obj [("error", Json.str ("Symbol parameter is required"))]⟩, []⟩
  else
    let cleanSymbol := symbol.toUpper.trim
    let url := balanceSheetUrl cleanSymbol period
    let fail (m : String) : Outcome := ⟨⟨500, errBody ("Failed to fetch balance sheet data") m ts⟩, [url]⟩
    match fetch 0 url with
    | FetchResult.netError m => fail m
    | FetchResult.success r =>
      match jsonParse r.body with
      | none => fail ("Failed to parse JSON response: " ++ jsonParseErrMsg)
      | some data =>
        if r.isOk = false then
          fail ("API returned status " ++ toString r.status ++ ": " ++ stringify data)
        else ⟨⟨200, data⟩, [url]⟩

/-- URL built by the income-statement handler (server.js line 178). -/
def incomeStatementUrl (cleanSymbol period : String) : String :=
  SYNERGY_API_URL ++ "/companies/" ++ cleanSymbol ++ "/income-statement?period=" ++ period

/-- Handler of `GET /api/income-statement/:symbol` (server.js lines
166-225): like the balance-sheet handler except that a parse failure
responds 500 directly with a `rawResponsePreview` of the first 200
characters, and a non-2xx upstream status is relayed as the caller's
status with the serialized upstream body as `details`. -/
def apiIncomeStatement (symbol period : String) (fetch : Fetcher) (ts : String) : Outcome :=
  if symbol = "" then
    ⟨⟨400, Json.obj [("error", Json.str ("Symbol parameter is required"))]⟩, []⟩
  else
    let cleanSymbol := symbol.toUpper.trim
    let url := incomeStatementUrl cleanSymbol period
    match fetch 0 url with
    | FetchResult.netError m =>
      ⟨⟨500, errBody ("Failed to fetch income statement data") m ts⟩, [url]⟩
    | FetchResult.success r =>
      match jsonParse r.body with
      | none =>
        ⟨⟨500, Json.obj [("error", Json.str ("Failed to parse JSON response")),
            ("details", Json.str jsonParseErrMsg),
            ("rawResponsePreview", Json.str (strTake r.body 200)),
            ("timestamp", Json.str ts)]⟩, [url]⟩
      | some data =>
        if r.isOk = false then
          ⟨⟨r.status, errBody ("API returned status " ++ toString r.status) (stringify data) ts⟩, [url]⟩
        else ⟨⟨200, data⟩, [url]⟩

/-- URL built by the cash-flow handler (server.js line 244). -/
def cashFlowUrl (cleanSymbol period : String) : String :=
  SYNERGY_API_URL ++ "/companies/" ++ cleanSymbol ++ "/cash-flow-statement?period=" ++ period

/-- Handler of `GET /api/cash-flow-statement/:symbol` (server.js lines
228-295): same structure as the income-statement handler (the `stack`
field of its catch branch is absent outside development mode and is
omitted, as `JSON.stringify` drops `undefined` members). -/
def apiCashFlowStatement (symbol period : String) (fetch : Fetcher) (ts : String) : Outcome :=
  if symbol = "" then
    ⟨⟨400, Json.obj [("error", Json.str ("Symbol parameter is required"))]⟩, []⟩
  else
    let cleanSymbol := symbol.toUpper.trim
    let url := cashFlowUrl cleanSymbol period
    match fetch 0 url with
    | FetchResult.netError m =>
      ⟨⟨500, errBody ("Failed to fetch cash flow statement data") m ts⟩, [url]⟩
    | FetchResult.success r =>
      match jsonParse r.body with
      | none =>
        ⟨⟨500, Json.obj [("error", Json.str ("Failed to parse JSON response")),
            ("details", Json.str jsonParseErrMsg),
            ("rawResponsePreview", Json.str (strTake r.body 200)),
            ("timestamp", Json.str ts)]⟩, [url]⟩
      | some data =>
        if r.isOk = false then
          ⟨⟨r.status, errBody ("API returned status " ++ toString r.status) (stringify data) ts⟩, [url]⟩
        else ⟨⟨200, data⟩, [url]⟩

/-- Shared response decoding of the earnings endpoint (server.js lines
154-162): read the body as text and parse it as JSON; on failure throw
an error naming the source. The upstream status is not consulted. -/
def handleApiResponse (r : UpstreamResponse) (source : String) : Except String Json :=
  match jsonParse r.body with
  | some j => Except.ok j
  | none => Except.error ("Failed to parse " ++ source ++ " response: " ++ jsonParseErrMsg)

/-- Calendar upstream URL of the earnings handler (server.js line 315). -/
def calendarUrl (fromDate toDate symbol : String) : String :=
  "https://finnhub.io/api/v1/calendar/earnings?from=" ++ fromDate ++ "&to=" ++ toDate ++ "&symbol=" ++ symbol

/-- Estimates upstream URL of the earnings handler (server.js line 328). -/
def estimatesUrl (symbol : String) : String :=
  "https://finnhub.io/api/v1/stock/earnings-estimates?symbol=" ++ symbol ++ "&freq=quarterly"

/-- Handler of `GET /api/earnings` (server.js lines 297-360): validate
`symbol`, compute the `[today, today+3 months]` window, fetch the
calendar URL, decode it via `handleApiResponse`, then fetch the
estimates URL and decode it, validate that the payloads carry
`earningsCalendar` / `earningsEstimates` arrays, and respond with the
combined object; any thrown error reaches the catch branch as a 500. -/
def apiEarnings (symbol : Option String) (today : JsDate) (fetch : Fetcher) (ts : String) : Outcome :=
  if truthyStr symbol = false then
    ⟨⟨400, Json.obj [("error", Json.str ("Symbol is required"))]⟩, []⟩
  else
    let s := symbol.getD ("")
    let fromDate := isoDateStr today
    let toDate := isoDateStr (jsSetMonthPlus3 today)
    let calUrl := calendarUrl fromDate toDate s
    let fail (m : String) (calls : List String) : Outcome :=
      ⟨⟨500, errBody ("Failed to fetch earnings data") m ts⟩, calls⟩
    match fetch 0 calUrl with
    | FetchResult.netError m => fail m [calUrl]
    | FetchResult.success calResp =>
      match handleApiResponse calResp ("Calendar") with
      | Except.error m => fail m [calUrl]
      | Except.ok calendarData =>
        let estUrl := estimatesUrl s
        match fetch 1 estUrl with
        | FetchResult.netError m => fail m [calUrl, estUrl]
        | FetchResult.success estResp =>
          match handleApiResponse estResp ("Estimates") with
          | Except.error m => fail m [calUrl, estUrl]
          | Except.ok estimatesData =>
            match jsGet calendarData ("earningsCalendar") with
            | Except.error m => fail m [calUrl, estUrl]
            | Except.ok cal =>
              if isArrayOpt cal = false then fail ("Invalid calendar data structure") [calUrl, estUrl]
              else
                match jsGet estimatesData ("earningsEstimates") with
                | Except.error m => fail m [calUrl, estUrl]
                | Except.ok est =>
                  if isArrayOpt est = false then fail ("Invalid estimates data structure") [calUrl, estUrl]
                  else ⟨⟨200, Json.obj [("calendar", calendarData), ("estimates", estimatesData)]⟩, [calUrl, estUrl]⟩

/-- Handler of `GET /health` (server.js lines 54-56). -/
def healthCheck (ts : String) : Outcome :=
  ⟨⟨200, Json.obj [("status", Json.str ("ok")), ("timestamp", Json.str ts)]⟩, []⟩

/-! ### Router -/

/-- An incoming request: the path, and the query string as key/value
pairs (first occurrence wins, as the handlers read single values). -/
structure Request where
  path : String
  query : List (String × String)

/-- Query-parameter access (`req.query.k`). -/
def getQuery (req : Request) (k : String) : Option String :=
  (req.query.find? (fun p => p.1 = k)).map (fun p => p.2)

/-- Split a character list at `/`, keeping empty segments, with an
accumulator for the segment under construction. -/
def splitSlashAux : List Char → List Char → List String
  | [], acc => [String.mk acc.reverse]
  | c :: cs, acc =>
    if c = '/' then String.mk acc.reverse :: splitSlashAux cs []
    else splitSlashAux cs (c :: acc)

/-- The `/`-separated segments of a path (as `splitOn "/"`: a leading
slash yields a leading empty segment). -/
def pathSegs (s : String) : List String := splitSlashAux s.data []

/-- Model of an Express route pattern `/p1/p2/:symbol`: the parameter
matches exactly one non-empty path segment; a trailing slash is
tolerated (default `strict:false`). -/
def pathParam (p1 p2 : String) (path : String) : Option String :=
  match pathSegs path with
  | ["", a, b, s] => if a = p1 && b = p2 && s ≠ "" then some s else none
  | ["", a, b, s, ""] => if a = p1 && b = p2 && s ≠ "" then some s else none
  | _ => none

/-- A fixed-path route, with the optional trailing slash. -/
def pathIs (route path : String) : Bool :=
  path = route || path = route ++ "/"

/-- The application router: dispatch a request to the route handlers in
their registration order (server.js), or answer the Express default 404
when no route matches. -/
def appHandle (req : Request) (today : JsDate) (fetch : Fetcher) (ts : String) : Outcome :=
  if pathIs ("/health") req.path then healthCheck ts
  else if pathIs ("/api/search") req.path then
    apiSearch (getQuery req ("query")) ((getQuery req ("limit")).getD ("20")) ((getQuery req ("page")).getD ("1")) fetch ts
  else
    match pathParam ("api") ("balance-sheet") req.path with
    | some s => apiBalanceSheet s ((getQuery req ("period")).getD ("annual")) fetch ts
    | none =>
      match pathParam ("api") ("income-statement") req.path with
      | some s => apiIncomeStatement s ((getQuery req ("period")).getD ("annual")) fetch ts
      | none =>
        match pathParam ("api") ("cash-flow-statement") req.path with
        | some s => apiCashFlowStatement s ((getQuery req ("period")).getD ("annual")) fetch ts
        | none =>
          if pathIs ("/api/earnings") req.path then
            apiEarnings (getQuery req ("symbol")) today fetch ts
          else ⟨⟨404, Json.str ("Cannot GET " ++ req.path)⟩, []⟩

/-! ### Statement-level definitions -/

/-- An optional value holding a JSON string. -/
def isStrOpt : Option Json → Bool
  | some (Json.str _) => true
  | _ => false

/-- A response body carrying the full error envelope of the spec:
string fields `error`, `details` and `timestamp`. -/
def fullEnvelope (b : Json) : Bool :=
  isStrOpt (getField b ("error")) && isStrOpt (getField b ("details")) && isStrOpt (getField b ("timestamp"))

/-- The 400 response of the missing-symbol branch of the `:symbol` handlers. -/
def missingSymbol400 : HttpResponse :=
  ⟨400, Json.obj [("error", Json.str ("Symbol parameter is required"))]⟩

/-- ASCII lowercasing on code points (model of the case folding behind a
case-insensitive comparison). -/
def lowerN (n : Nat) : Nat := if 65 ≤ n && n ≤ 90 then n + 32 else n

/-- Case-insensitive prefix match on character lists. -/
def ciMatch : List Char → List Char → Bool
  | [], _ => true
  | _ :: _, [] => false
  | p :: ps, c :: cs => (lowerN p.toNat = lowerN c.toNat) && ciMatch ps cs

/-- Modelled from the spec: the HTML-document detector it describes for
the response interpreter — a case-insensitive prefix match on
`<!doctype html>` or `<html` — which no code under src implements.
Used only to state the claim about HTML upstream bodies. -/
def htmlDetect (s : String) : Bool :=
  ciMatch ("<!doctype html>".data) s.data || ciMatch ("<html".data) s.data

/-! ### Concrete upstream scripts used by counterexamples and witnesses -/

/-- Upstream script of the retry scenario of the spec: non-2xx JSON on the
first two invocations, success with a `results` array on the third. -/
def retryScriptFetch : Fetcher := fun i _ =>
  if i < 2 then FetchResult.success ⟨503, ("\x7b\"error\":\"unavailable\"\x7d")⟩
  else FetchResult.success ⟨200, ("\x7b\"results\":[]\x7d")⟩

/-- Upstream that always answers 503 with a JSON body. -/
def always503Fetch : Fetcher := fun _ _ =>
  FetchResult.success ⟨503, ("\x7b\"error\":\"unavailable\"\x7d")⟩

/-- Upstream whose transport always fails. -/
def netErrFetch : Fetcher := fun _ _ => FetchResult.netError ("socket hang up")

/-- An HTML error page, as served by a misbehaving upstream. -/
def htmlDocBody : String := "<!DOCTYPE html><html><body>Service Unavailable</body></html>"

/-- Upstream that answers 200 with the HTML page. -/
def htmlFetch : Fetcher := fun _ _ => FetchResult.success ⟨200, htmlDocBody⟩

/-- Upstream that answers 200 with a body that is not JSON. -/
def oopsFetch : Fetcher := fun _ _ => FetchResult.success ⟨200, ("oops")⟩

/-- Upstream that answers 200 with JSON lacking the `results` field. -/
def noResultsFetch : Fetcher := fun _ _ =>
  FetchResult.success ⟨200, ("\x7b\"nope\":1\x7d")⟩

/-- Upstream that answers 200 with a well-shaped `results` payload. -/
def resultsOkFetch : Fetcher := fun _ _ =>
  FetchResult.success ⟨200, ("\x7b\"results\":[]\x7d")⟩

/-- Upstream that answers the two calls of the earnings endpoint with
well-shaped calendar and estimates payloads. -/
def earningsOkFetch : Fetcher := fun i _ =>
  FetchResult.success
    ⟨200, if i = 0 then ("\x7b\"earningsCalendar\":[]\x7d") else ("\x7b\"earningsEstimates\":[]\x7d")⟩

/-- Upstream that answers 404 with a JSON body. -/
def status404Fetch : Fetcher := fun _ _ =>
  FetchResult.success ⟨404, ("\x7b\"detail\":\"Not found\"\x7d")⟩

/-- Trichotomy stated by the (amended) envelope claim: a handler outcome
is a success, the bare missing-parameter 400, or carries the full
error/details/timestamp envelope. -/
def envelopeTrichotomy (o : Outcome) (missingMsg : String) : Prop :=
  o.resp.status = 200 ∨
  o.resp = ⟨400, Json.obj [("error", Json.str missingMsg)]⟩ ∨
  fullEnvelope o.resp.body = true

/-! ### Helper lemmas -/

theorem isArrayOpt_true {v : Option Json} (h : isArrayOpt v = true) :
    ∃ xs, v = some (Json.arr xs) := by
  match v with
  | some (Json.arr xs) => exact ⟨xs, rfl⟩
  | none | some Json.null | some (Json.bool _) | some (Json.num _)
  | some (Json.str _) | some (Json.obj _) => simp [isArrayOpt] at h

theorem hasArrayField_of_get {j : Json} {k : String} {v : Option Json}
    (hg : jsGet j k = Except.ok v) : hasArrayField j k = isArrayOpt v := by
  unfold hasArrayField
  rw [hg]
  match v with
  | some (Json.arr xs) => rfl
  | none | some Json.null | some (Json.bool _) | some (Json.num _)
  | some (Json.str _) | some (Json.obj _) => rfl

theorem hasArrayField_of_get_error {j : Json} {k : String} {m : String}
    (hg : jsGet j k = Except.error m) : hasArrayField j k = false := by
  unfold hasArrayField
  rw [hg]

theorem getField_errBody_error (e d t : String) :
    getField (errBody e d t) ("error") = some (Json.str e) := rfl

theorem getField_errBody_details (e d t : String) :
    getField (errBody e d t) ("details") = some (Json.str d) := rfl

theorem getField_errBody_timestamp (e d t : String) :
    getField (errBody e d t) ("timestamp") = some (Json.str t) := rfl

theorem getField_errBody_retryable (e d t : String) :
    getField (errBody e d t) ("retryable") = none := rfl

theorem getField_errBody_calendar (e d t : String) :
    getField (errBody e d t) ("calendar") = none := rfl

theorem getField_errBody_estimates (e d t : String) :
    getField (errBody e d t) ("estimates") = none := rfl

theorem fullEnvelope_errBody (e d t : String) : fullEnvelope (errBody e d t) = true := rfl

theorem strTake_length_le (s : String) (n : Nat) : (strTake s n).length ≤ n := by
  have h : (strTake s n).length = (s.data.take n).length := rfl
  rw [h, List.length_take]
  exact Nat.min_le_left _ _

theorem char_toNat_inj (a b : Char) (h : a.toNat = b.toNat) : a = b := by
  have ha := Char.ofNat_toNat a
  rw [h] at ha
  rw [← ha, Char.ofNat_toNat]

theorem jVal_lt (f : Nat) (cs : List Char) : jVal (f + 1) ('<' :: cs) = none := rfl

theorem lowerN_eq_60 (n : Nat) (h : lowerN n = 60) : n = 60 := by
  unfold lowerN at h
  split at h
  · next hr =>
    simp only [Bool.and_eq_true, decide_eq_true_eq] at hr
    omega
  · exact h

theorem htmlDetect_head (s : String) (h : htmlDetect s = true) :
    ∃ cs, s.data = '<' :: cs := by
  unfold htmlDetect at h
  rcases (Bool.or_eq_true _ _).mp h with h1 | h1 <;>
  · match hd : s.data with
    | [] => rw [hd] at h1; simp [ciMatch] at h1
    | c :: cs =>
      rw [hd] at h1
      simp only [ciMatch, Bool.and_eq_true, decide_eq_true_eq] at h1
      refine ⟨cs, ?_⟩
      have h2 : lowerN c.toNat = 60 := h1.1.symm.trans (by decide)
      have hc : c.toNat = 60 := lowerN_eq_60 _ h2
      have : c = '<' := char_toNat_inj c '<' (by rw [hc]; rfl)
      rw [this]

theorem jsonParse_head_lt (s : String) (cs : List Char) (h : s.data = '<' :: cs) :
    jsonParse s = none := by
  unfold jsonParse
  rw [h]
  have hf : 2 * ('<' :: cs).length + 8 = (2 * ('<' :: cs).length + 7) + 1 := rfl
  rw [hf, jVal_lt]

/-! ### Claim C1 -/

/-- Claim C1 counterexample: against the retry scenario stated by the spec (upstream
non-2xx on invocations 1 and 2, success on invocation 3), the search
handler of server.js performs exactly one upstream invocation and
answers the 500 failure envelope — it never retries and never reaches
the would-be successful third attempt. -/
theorem search_retry_cex :
    (apiSearch (some ("apple")) ("20") ("1") retryScriptFetch ("T")).calls.length = 1 ∧
    (apiSearch (some ("apple")) ("20") ("1") retryScriptFetch ("T")).resp.status = 500 ∧
    getField (apiSearch (some ("apple")) ("20") ("1") retryScriptFetch ("T")).resp.body ("error") =
      some (Json.str ("Failed to fetch search data")) :=
  ⟨rfl, rfl, rfl⟩

/-- Claim C1 (amended): for `/api/search` with a query present, the handler
performs exactly one upstream invocation, with no retry loop and no
backoff: a transport failure of that single attempt is answered
immediately with the 500 catch envelope carrying the error message, and
a non-2xx upstream status is likewise answered immediately after this
one invocation. -/
theorem search_single_attempt (query : Option String) (lim pg ts : String) (fetch : Fetcher)
    (h : truthyStr query = true) :
    (apiSearch query lim pg fetch ts).calls = [searchUrl (query.getD ("")) lim pg] ∧
    (∀ m, fetch 0 (searchUrl (query.getD ("")) lim pg) = FetchResult.netError m →
      (apiSearch query lim pg fetch ts).resp = searchFailure m ts) ∧
    (∀ r data, fetch 0 (searchUrl (query.getD ("")) lim pg) = FetchResult.success r →
      jsonParse r.body = some data → r.isOk = false →
      (apiSearch query lim pg fetch ts).resp =
        searchFailure ("Synergy API error (" ++ toString r.status ++ "): " ++ stringify data) ts) := by
  refine ⟨?_, ?_, ?_⟩
  · unfold apiSearch
    split
    · next hq => rw [h] at hq; simp at hq
    · dsimp only
      split
      · rfl
      · split
        · rfl
        · split
          · rfl
          · split
            · rfl
            · split <;> rfl
  · intro m hm
    unfold apiSearch
    split
    · next hq => rw [h] at hq; simp at hq
    · dsimp only
      rw [hm]
  · intro r data hr hp hok
    unfold apiSearch
    split
    · next hq => rw [h] at hq; simp at hq
    · dsimp only
      rw [hr]
      simp only [hp, hok]
      rfl

/-- Witness for `search_single_attempt` at a concrete query and a
concretely failing upstream. -/
theorem search_single_attempt_witness :
    (apiSearch (some ("apple")) ("20") ("1") netErrFetch ("T")).calls =
      [searchUrl ("apple") ("20") ("1")] ∧
    (apiSearch (some ("apple")) ("20") ("1") netErrFetch ("T")).resp =
      searchFailure ("socket hang up") ("T") := by
  have h := search_single_attempt (some ("apple")) ("20") ("1") ("T") netErrFetch (by decide)
  exact ⟨h.1, h.2.1 ("socket hang up") rfl⟩

/-! ### Claim C2 -/

/-- Claim C2 counterexample: an upstream that always answers a non-2xx status
yields, after the handler single attempt, an HTTP 500 — not the 502
the claim states — with no `retryable` field in the body, and only one
upstream invocation rather than three. -/
theorem search_502_cex :
    (apiSearch (some ("apple")) ("20") ("1") always503Fetch ("T")).resp.status = 500 ∧
    getField (apiSearch (some ("apple")) ("20") ("1") always503Fetch ("T")).resp.body ("retryable") = none ∧
    (apiSearch (some ("apple")) ("20") ("1") always503Fetch ("T")).calls.length = 1 :=
  ⟨rfl, rfl, rfl⟩

/-- Claim C2 (amended): with a query present, every outcome of the search
handler is either the 200 relay or an HTTP 500 whose body is the
`Failed to fetch search data` error/details/timestamp envelope with no
`retryable` marker; in particular a failure whose message indicates an
upstream non-2xx status is returned as a 500 like every other failure,
never as a 502. -/
theorem search_failure_always_500 (query : Option String) (lim pg ts : String) (fetch : Fetcher)
    (h : truthyStr query = true) :
    (apiSearch query lim pg fetch ts).resp.status = 200 ∨
    ((apiSearch query lim pg fetch ts).resp.status = 500 ∧
      getField (apiSearch query lim pg fetch ts).resp.body ("error") =
        some (Json.str ("Failed to fetch search data")) ∧
      fullEnvelope (apiSearch query lim pg fetch ts).resp.body = true ∧
      getField (apiSearch query lim pg fetch ts).resp.body ("retryable") = none) := by
  unfold apiSearch
  split
  · next hq => rw [h] at hq; simp at hq
  · dsimp only
    split
    · right; exact ⟨rfl, rfl, rfl, rfl⟩
    · split
      · right; exact ⟨rfl, rfl, rfl, rfl⟩
      · split
        · right; exact ⟨rfl, rfl, rfl, rfl⟩
        · split
          · right; exact ⟨rfl, rfl, rfl, rfl⟩
          · split
            · right; exact ⟨rfl, rfl, rfl, rfl⟩
            · left; rfl

/-- Witness for `search_failure_always_500` at the always-503 upstream. -/
theorem search_failure_always_500_witness :
    (apiSearch (some ("apple")) ("20") ("1") always503Fetch ("T")).resp.status = 200 ∨
    ((apiSearch (some ("apple")) ("20") ("1") always503Fetch ("T")).resp.status = 500 ∧
      getField (apiSearch (some ("apple")) ("20") ("1") always503Fetch ("T")).resp.body ("error") =
        some (Json.str ("Failed to fetch search data")) ∧
      fullEnvelope (apiSearch (some ("apple")) ("20") ("1") always503Fetch ("T")).resp.body = true ∧
      getField (apiSearch (some ("apple")) ("20") ("1") always503Fetch ("T")).resp.body ("retryable") = none) :=
  search_failure_always_500 (some ("apple")) ("20") ("1") ("T") always503Fetch (by decide)

/-! ### Claim C3 -/

/-- Claim C3 counterexample: the HTTP 400 response for a missing `query` on
`/api/search` carries only the `error` string — no `details` and no
`timestamp` field — contradicting the claimed invariant for error
responses. -/
theorem missing_param_envelope_cex :
    (appHandle ⟨("/api/search"), []⟩ ⟨2025, 0, 1⟩ netErrFetch ("T")).resp.status = 400 ∧
    getField (appHandle ⟨("/api/search"), []⟩ ⟨2025, 0, 1⟩ netErrFetch ("T")).resp.body ("error") =
      some (Json.str ("Query parameter is required")) ∧
    getField (appHandle ⟨("/api/search"), []⟩ ⟨2025, 0, 1⟩ netErrFetch ("T")).resp.body ("details") = none ∧
    getField (appHandle ⟨("/api/search"), []⟩ ⟨2025, 0, 1⟩ netErrFetch ("T")).resp.body ("timestamp") = none :=
  ⟨rfl, rfl, rfl, rfl⟩

/-- Claim C3 (amended): every response of every endpoint is a 200 relay, the
bare one-field 400 for a missing required parameter, or a body carrying
the full `error`/`details`/`timestamp` string envelope; the 400
missing-parameter responses carry only the `error` string. -/
theorem error_envelope_fields (query symbol : Option String) (sym lim pg period ts : String)
    (fetch : Fetcher) (today : JsDate) :
    envelopeTrichotomy (apiSearch query lim pg fetch ts) ("Query parameter is required") ∧
    envelopeTrichotomy (apiBalanceSheet sym period fetch ts) ("Symbol parameter is required") ∧
    envelopeTrichotomy (apiIncomeStatement sym period fetch ts) ("Symbol parameter is required") ∧
    envelopeTrichotomy (apiCashFlowStatement sym period fetch ts) ("Symbol parameter is required") ∧
    envelopeTrichotomy (apiEarnings symbol today fetch ts) ("Symbol is required") ∧
    (healthCheck ts).resp.status = 200 := by
  refine ⟨?_, ?_, ?_, ?_, ?_, rfl⟩
  · unfold envelopeTrichotomy apiSearch
    split
    · exact Or.inr (Or.inl rfl)
    · dsimp only
      split
      · exact Or.inr (Or.inr rfl)
      · split
        · exact Or.inr (Or.inr rfl)
        · split
          · exact Or.inr (Or.inr rfl)
          · split
            · exact Or.inr (Or.inr rfl)
            · split
              · exact Or.inr (Or.inr rfl)
              · exact Or.inl rfl
  · unfold envelopeTrichotomy apiBalanceSheet
    split
    · exact Or.inr (Or.inl rfl)
    · dsimp only
      split
      · exact Or.inr (Or.inr rfl)
      · split
        · exact Or.inr (Or.inr rfl)
        · split
          · exact Or.inr (Or.inr rfl)
          · exact Or.inl rfl
  · unfold envelopeTrichotomy apiIncomeStatement
    split
    · exact Or.inr (Or.inl rfl)
    · dsimp only
      split
      · exact Or.inr (Or.inr rfl)
      · split
        · exact Or.inr (Or.inr rfl)
        · split
          · exact Or.inr (Or.inr rfl)
          · exact Or.inl rfl
  · unfold envelopeTrichotomy apiCashFlowStatement
    split
    · exact Or.inr (Or.inl rfl)
    · dsimp only
      split
      · exact Or.inr (Or.inr rfl)
      · split
        · exact Or.inr (Or.inr rfl)
        · split
          · exact Or.inr (Or.inr rfl)
          · exact Or.inl rfl
  · unfold envelopeTrichotomy apiEarnings
    split
    · exact Or.inr (Or.inl rfl)
    · dsimp only
      split
      · exact Or.inr (Or.inr rfl)
      · split
        · exact Or.inr (Or.inr rfl)
        · split
          · exact Or.inr (Or.inr rfl)
          · split
            · exact Or.inr (Or.inr rfl)
            · split
              · exact Or.inr (Or.inr rfl)
              · split
                · exact Or.inr (Or.inr rfl)
                · split
                  · exact Or.inr (Or.inr rfl)
                  · split
                    · exact Or.inr (Or.inr rfl)
                    · exact Or.inl rfl

/-! ### Claim C4 -/

/-- Claim C4 counterexample: a request to a `:symbol` route that omits the
symbol segment is not dispatched to the handler at all — the router
answers 404, not the claimed 400 — though indeed no upstream call is
made. -/
theorem missing_symbol_route_cex :
    (appHandle ⟨("/api/balance-sheet/"), []⟩ ⟨2025, 0, 1⟩ netErrFetch ("T")).resp.status = 404 ∧
    (appHandle ⟨("/api/balance-sheet/"), []⟩ ⟨2025, 0, 1⟩ netErrFetch ("T")).calls = [] :=
  ⟨rfl, rfl⟩

/-- Claim C4 (amended): omitting the required query parameter on `/api/search`
or `/api/earnings` yields the 400 client error naming the missing field
with no upstream call; a request to a `:symbol` route without a symbol
segment does not match the route and receives the 404 of the router, again
with no upstream call. -/
theorem missing_param_fail_fast (lim pg ts : String) (q : List (String × String))
    (today : JsDate) (fetch : Fetcher) :
    apiSearch none lim pg fetch ts =
      ⟨⟨400, Json.obj [("error", Json.str ("Query parameter is required"))]⟩, []⟩ ∧
    apiEarnings none today fetch ts =
      ⟨⟨400, Json.obj [("error", Json.str ("Symbol is required"))]⟩, []⟩ ∧
    appHandle ⟨("/api/balance-sheet"), q⟩ today fetch ts =
      ⟨⟨404, Json.str ("Cannot GET /api/balance-sheet")⟩, []⟩ ∧
    appHandle ⟨("/api/balance-sheet/"), q⟩ today fetch ts =
      ⟨⟨404, Json.str ("Cannot GET /api/balance-sheet/")⟩, []⟩ ∧
    appHandle ⟨("/api/income-statement"), q⟩ today fetch ts =
      ⟨⟨404, Json.str ("Cannot GET /api/income-statement")⟩, []⟩ ∧
    appHandle ⟨("/api/income-statement/"), q⟩ today fetch ts =
      ⟨⟨404, Json.str ("Cannot GET /api/income-statement/")⟩, []⟩ ∧
    appHandle ⟨("/api/cash-flow-statement"), q⟩ today fetch ts =
      ⟨⟨404, Json.str ("Cannot GET /api/cash-flow-statement")⟩, []⟩ ∧
    appHandle ⟨("/api/cash-flow-statement/"), q⟩ today fetch ts =
      ⟨⟨404, Json.str ("Cannot GET /api/cash-flow-statement/")⟩, []⟩ := by
  refine ⟨rfl, rfl, rfl, rfl, rfl, rfl, rfl, rfl⟩

/-! ### Claim C5 -/

/-- Claim C5: before relaying, `/api/search` requires a `results` array in the
decoded payload and `/api/earnings` requires `earningsCalendar` and
`earningsEstimates` arrays in its two payloads; a payload whose expected
field is absent or not an array yields a 500 server error, and a 200
relay happens only when the field is a genuine array, with the payload
passed through unmodified (never coerced). -/
theorem upstream_shape_validation :
    (∀ (query : Option String) (lim pg ts : String) (fetch : Fetcher)
       (r : UpstreamResponse) (data : Json),
      truthyStr query = true →
      fetch 0 (searchUrl (query.getD ("")) lim pg) = FetchResult.success r →
      r.isOk = true →
      jsonParse r.body = some data →
      ((hasArrayField data ("results") = false →
         (apiSearch query lim pg fetch ts).resp.status = 500 ∧
         getField (apiSearch query lim pg fetch ts).resp.body ("error") =
           some (Json.str ("Failed to fetch search data"))) ∧
       ((apiSearch query lim pg fetch ts).resp.status = 200 →
         (apiSearch query lim pg fetch ts).resp.body = data ∧
         hasArrayField data ("results") = true))) ∧
    (∀ (symbol : Option String) (today : JsDate) (ts : String) (fetch : Fetcher)
       (calR estR : UpstreamResponse) (calData estData : Json),
      truthyStr symbol = true →
      fetch 0 (calendarUrl (isoDateStr today) (isoDateStr (jsSetMonthPlus3 today)) (symbol.getD (""))) =
        FetchResult.success calR →
      jsonParse calR.body = some calData →
      fetch 1 (estimatesUrl (symbol.getD (""))) = FetchResult.success estR →
      jsonParse estR.body = some estData →
      (((hasArrayField calData ("earningsCalendar") = false ∨
         hasArrayField estData ("earningsEstimates") = false) →
         (apiEarnings symbol today fetch ts).resp.status = 500) ∧
       ((apiEarnings symbol today fetch ts).resp.status = 200 →
         (apiEarnings symbol today fetch ts).resp.body =
           Json.obj [("calendar", calData), ("estimates", estData)] ∧
         hasArrayField calData ("earningsCalendar") = true ∧
         hasArrayField estData ("earningsEstimates") = true))) := by
  constructor
  · intro query lim pg ts fetch r data hq hf hok hp
    unfold apiSearch
    split
    · next h0 => rw [hq] at h0; simp at h0
    · dsimp only
      rw [hf]
      simp only [hp]
      have hnot : ¬(r.isOk = false) := by rw [hok]; simp
      rw [if_neg hnot]
      cases hg : jsGet data ("results") with
      | error m =>
        refine ⟨fun _ => ⟨rfl, rfl⟩, fun h200 => by simp [searchFailure] at h200⟩
      | ok v =>
        by_cases harr : isArrayOpt v = true
        · obtain ⟨xs, hv⟩ := isArrayOpt_true harr
          subst hv
          dsimp only
          rw [if_neg (by simp [truthyOpt, truthy, isArrayOpt])]
          refine ⟨fun hbad => ?_, fun _ => ⟨rfl, ?_⟩⟩
          · rw [hasArrayField_of_get hg] at hbad
            simp [isArrayOpt] at hbad
          · rw [hasArrayField_of_get hg]
            simp [isArrayOpt]
        · have hvf : isArrayOpt v = false := by revert harr; cases isArrayOpt v <;> simp
          dsimp only
          rw [if_pos (by simp [hvf])]
          refine ⟨fun _ => ⟨rfl, rfl⟩, fun h200 => by simp [searchFailure] at h200⟩
  · intro symbol today ts fetch calR estR calData estData hs hfc hpc hfe hpe
    unfold apiEarnings
    split
    · next h0 => rw [hs] at h0; simp at h0
    · dsimp only
      rw [hfc]
      have hcal : handleApiResponse calR ("Calendar") = Except.ok calData := by
        unfold handleApiResponse; rw [hpc]
      simp only [hcal]
      rw [hfe]
      have hest : handleApiResponse estR ("Estimates") = Except.ok estData := by
        unfold handleApiResponse; rw [hpe]
      simp only [hest]
      cases hg1 : jsGet calData ("earningsCalendar") with
      | error m =>
        refine ⟨fun _ => rfl, fun h200 => by simp at h200⟩
      | ok v1 =>
        by_cases harr1 : isArrayOpt v1 = true
        · obtain ⟨xs1, hv1⟩ := isArrayOpt_true harr1
          subst hv1
          dsimp only
          rw [if_neg (by simp [isArrayOpt])]
          cases hg2 : jsGet estData ("earningsEstimates") with
          | error m =>
            refine ⟨fun _ => rfl, fun h200 => by simp at h200⟩
          | ok v2 =>
            by_cases harr2 : isArrayOpt v2 = true
            · obtain ⟨xs2, hv2⟩ := isArrayOpt_true harr2
              subst hv2
              dsimp only
              rw [if_neg (by simp [isArrayOpt])]
              refine ⟨fun hbad => ?_, fun _ => ⟨rfl, ?_, ?_⟩⟩
              · rcases hbad with hbad | hbad
                · rw [hasArrayField_of_get hg1] at hbad
                  simp [isArrayOpt] at hbad
                · rw [hasArrayField_of_get hg2] at hbad
                  simp [isArrayOpt] at hbad
              · rw [hasArrayField_of_get hg1]; simp [isArrayOpt]
              · rw [hasArrayField_of_get hg2]; simp [isArrayOpt]
            · have hvf2 : isArrayOpt v2 = false := by revert harr2; cases isArrayOpt v2 <;> simp
              dsimp only
              rw [if_pos hvf2]
              refine ⟨fun _ => rfl, fun h200 => by simp at h200⟩
        · have hvf1 : isArrayOpt v1 = false := by revert harr1; cases isArrayOpt v1 <;> simp
          dsimp only
          rw [if_pos hvf1]
          refine ⟨fun _ => rfl, fun h200 => by simp at h200⟩

/-- Witness for `upstream_shape_validation`: a 200 payload lacking the
`results` array is answered 500, never relayed. -/
theorem upstream_shape_validation_witness :
    (apiSearch (some ("q")) ("20") ("1") noResultsFetch ("T")).resp.status = 500 ∧
    getField (apiSearch (some ("q")) ("20") ("1") noResultsFetch ("T")).resp.body ("error") =
      some (Json.str ("Failed to fetch search data")) :=
  (upstream_shape_validation.1 (some ("q")) ("20") ("1") ("T") noResultsFetch
    ⟨200, ("\x7b\"nope\":1\x7d")⟩ (Json.obj [(("nope"), Json.num 1)])
    (by decide) rfl rfl rfl).1 rfl

/-! ### Claim C6 -/

/-- Claim C6 counterexample: when the transport of the calendar call fails, the
earnings handler issues only one upstream call — not the claimed exactly
two — before answering the single 500 envelope. -/
theorem earnings_two_calls_cex :
    (apiEarnings (some ("AAPL")) ⟨2025, 5, 15⟩ netErrFetch ("T")).calls.length = 1 ∧
    (apiEarnings (some ("AAPL")) ⟨2025, 5, 15⟩ netErrFetch ("T")).resp.status = 500 :=
  ⟨rfl, rfl⟩

/-- Claim C6 (amended): with a symbol present, the earnings handler issues at
most two upstream calls, always starting with the calendar URL; the
estimates call is issued exactly when the calendar call completes and
its body parses as JSON (so shape-validation failures still see two
calls, while calendar transport or parse failures stop after one); any
failure yields a single error envelope with no partial
`calendar`/`estimates` object, and a 200 response is exactly the
combined two-payload object. -/
theorem earnings_call_discipline (symbol : Option String) (today : JsDate)
    (fetch : Fetcher) (ts : String) (h : truthyStr symbol = true) :
    ((apiEarnings symbol today fetch ts).calls =
        [calendarUrl (isoDateStr today) (isoDateStr (jsSetMonthPlus3 today)) (symbol.getD (""))] ∨
      (apiEarnings symbol today fetch ts).calls =
        [calendarUrl (isoDateStr today) (isoDateStr (jsSetMonthPlus3 today)) (symbol.getD ("")),
          estimatesUrl (symbol.getD (""))]) ∧
    (∀ m, fetch 0 (calendarUrl (isoDateStr today) (isoDateStr (jsSetMonthPlus3 today)) (symbol.getD (""))) =
        FetchResult.netError m →
      (apiEarnings symbol today fetch ts).calls =
        [calendarUrl (isoDateStr today) (isoDateStr (jsSetMonthPlus3 today)) (symbol.getD (""))]) ∧
    (∀ r, fetch 0 (calendarUrl (isoDateStr today) (isoDateStr (jsSetMonthPlus3 today)) (symbol.getD (""))) =
        FetchResult.success r → jsonParse r.body = none →
      (apiEarnings symbol today fetch ts).calls =
        [calendarUrl (isoDateStr today) (isoDateStr (jsSetMonthPlus3 today)) (symbol.getD (""))]) ∧
    (∀ r data, fetch 0 (calendarUrl (isoDateStr today) (isoDateStr (jsSetMonthPlus3 today)) (symbol.getD (""))) =
        FetchResult.success r → jsonParse r.body = some data →
      (apiEarnings symbol today fetch ts).calls =
        [calendarUrl (isoDateStr today) (isoDateStr (jsSetMonthPlus3 today)) (symbol.getD ("")),
          estimatesUrl (symbol.getD (""))]) ∧
    ((apiEarnings symbol today fetch ts).resp.status ≠ 200 →
      getField (apiEarnings symbol today fetch ts).resp.body ("calendar") = none ∧
      getField (apiEarnings symbol today fetch ts).resp.body ("estimates") = none ∧
      fullEnvelope (apiEarnings symbol today fetch ts).resp.body = true) ∧
    ((apiEarnings symbol today fetch ts).resp.status = 200 →
      ∃ calData estData, (apiEarnings symbol today fetch ts).resp.body =
        Json.obj [("calendar", calData), ("estimates", estData)]) := by
  refine ⟨?_, ?_, ?_, ?_, ?_, ?_⟩
  · unfold apiEarnings
    split
    · next h0 => rw [h] at h0; simp at h0
    · dsimp only
      repeat' split
      all_goals first | exact Or.inl rfl | exact Or.inr rfl
  · intro m hm
    unfold apiEarnings
    split
    · next h0 => rw [h] at h0; simp at h0
    · dsimp only
      rw [hm]
  · intro r hr hp
    unfold apiEarnings
    split
    · next h0 => rw [h] at h0; simp at h0
    · dsimp only
      rw [hr]
      have hcal : handleApiResponse r ("Calendar") =
          Except.error ("Failed to parse " ++ ("Calendar") ++ " response: " ++ jsonParseErrMsg) := by
        unfold handleApiResponse; rw [hp]
      simp only [hcal]
  · intro r data hr hp
    unfold apiEarnings
    split
    · next h0 => rw [h] at h0; simp at h0
    · dsimp only
      rw [hr]
      have hcal : handleApiResponse r ("Calendar") = Except.ok data := by
        unfold handleApiResponse; rw [hp]
      simp only [hcal]
      repeat' split
      all_goals rfl
  · unfold apiEarnings
    split
    · next h0 => rw [h] at h0; simp at h0
    · dsimp only
      repeat' split
      all_goals intro hne
      all_goals first | exact ⟨rfl, rfl, rfl⟩ | exact absurd rfl hne
  · unfold apiEarnings
    split
    · next h0 => rw [h] at h0; simp at h0
    · dsimp only
      repeat' split
      all_goals intro h200
      all_goals first | exact ⟨_, _, rfl⟩ | (simp at h200)

/-- Witness for `earnings_call_discipline` at a concrete symbol
with a transport-failing upstream. -/
theorem earnings_call_discipline_witness :
    (apiEarnings (some ("MSFT")) ⟨2025, 5, 15⟩ netErrFetch ("T")).calls =
      [calendarUrl (isoDateStr ⟨2025, 5, 15⟩) (isoDateStr (jsSetMonthPlus3 ⟨2025, 5, 15⟩)) ("MSFT")] :=
  (earnings_call_discipline (some ("MSFT")) ⟨2025, 5, 15⟩ netErrFetch ("T")
    (by decide)).2.1 ("socket hang up") rfl

/-! ### Claim C7 -/

/-- Claim C7 counterexample: invoked on 2025-01-31, the earnings handler
requests a calendar window ending 2025-05-01 (JS `setMonth` day
overflow), while the date exactly three calendar months later is
2025-04-30 — so `to` is not always "exactly three months" after the
invocation date. -/
theorem earnings_window_cex :
    (apiEarnings (some ("AAPL")) ⟨2025, 0, 31⟩ netErrFetch ("T")).calls =
      [calendarUrl ("2025-01-31") ("2025-05-01") ("AAPL")] ∧
    isoDateStr (specAddThreeMonths ⟨2025, 0, 31⟩) = ("2025-04-30") ∧
    jsSetMonthPlus3 ⟨2025, 0, 31⟩ ≠ specAddThreeMonths ⟨2025, 0, 31⟩ :=
  ⟨rfl, rfl, by decide⟩

/-- Claim C7 (amended): the calendar URL always carries `from` = the invocation
date and `to` = that date with its month index advanced by 3 under JS
`Date` semantics — which equals the same day three calendar months later
exactly when that day exists in the target month, and otherwise
overflows into the following month. -/
theorem earnings_window_js_semantics (symbol : Option String) (today : JsDate)
    (fetch : Fetcher) (ts : String) (h : truthyStr symbol = true) :
    (apiEarnings symbol today fetch ts).calls.head? =
      some (calendarUrl (isoDateStr today) (isoDateStr (jsSetMonthPlus3 today)) (symbol.getD (""))) ∧
    (today.day ≤ daysInMonth (today.year + (today.month + 3) / 12) ((today.month + 3) % 12) →
      jsSetMonthPlus3 today = specAddThreeMonths today) := by
  constructor
  · unfold apiEarnings
    split
    · next h0 => rw [h] at h0; simp at h0
    · dsimp only
      repeat' split
      all_goals rfl
  · intro hday
    unfold jsSetMonthPlus3 specAddThreeMonths
    dsimp only
    rw [if_pos hday]
    rw [Nat.min_eq_left hday]

/-- Witness for `earnings_window_js_semantics` on a date whose
day-of-month exists three months ahead. -/
theorem earnings_window_js_semantics_witness :
    (apiEarnings (some ("IBM")) ⟨2025, 5, 15⟩ netErrFetch ("T")).calls.head? =
      some (calendarUrl (isoDateStr ⟨2025, 5, 15⟩) (isoDateStr (jsSetMonthPlus3 ⟨2025, 5, 15⟩)) ("IBM")) ∧
    jsSetMonthPlus3 ⟨2025, 5, 15⟩ = specAddThreeMonths ⟨2025, 5, 15⟩ := by
  have hw := earnings_window_js_semantics (some ("IBM")) ⟨2025, 5, 15⟩ netErrFetch ("T") (by decide)
  exact ⟨hw.1, hw.2 (by decide)⟩

/-! ### Claim C8 -/

/-- Claim C8 counterexample: an HTML document body (matching the spec's
case-insensitive prefix detector) is indeed never decoded as JSON, but
the search handler classifies it exactly like a plain unparsable body —
same 500 status, same `error` field, no `retryable` marker — with no
distinct transient/retryable classification. -/
theorem html_body_cex :
    htmlDetect htmlDocBody = true ∧
    jsonParse htmlDocBody = none ∧
    (apiSearch (some ("q")) ("20") ("1") htmlFetch ("T")).resp.status = 500 ∧
    (apiSearch (some ("q")) ("20") ("1") htmlFetch ("T")).resp.status =
      (apiSearch (some ("q")) ("20") ("1") oopsFetch ("T")).resp.status ∧
    getField (apiSearch (some ("q")) ("20") ("1") htmlFetch ("T")).resp.body ("error") =
      getField (apiSearch (some ("q")) ("20") ("1") oopsFetch ("T")).resp.body ("error") ∧
    getField (apiSearch (some ("q")) ("20") ("1") htmlFetch ("T")).resp.body ("retryable") = none :=
  ⟨rfl, rfl, rfl, rfl, rfl, rfl⟩

/-- Claim C8 (amended): a body with the HTML prefix is never decoded as valid
JSON — `JSON.parse` fails on it — and both response interpreters
classify it as an ordinary parse failure: `handleApiResponse` throws the
generic parse error, and the search handler answers the plain
parse-failure 500 envelope, indistinguishable from any other malformed
body; no distinct transient/retryable classification exists in the
code. -/
theorem html_body_parse_failure (body : String) (h : htmlDetect body = true) :
    jsonParse body = none ∧
    (∀ source st, handleApiResponse ⟨st, body⟩ source =
      Except.error ("Failed to parse " ++ source ++ " response: " ++ jsonParseErrMsg)) ∧
    (∀ (q : Option String) (lim pg ts : String) (fetch : Fetcher) (st : Nat),
      truthyStr q = true →
      fetch 0 (searchUrl (q.getD ("")) lim pg) = FetchResult.success ⟨st, body⟩ →
      apiSearch q lim pg fetch ts =
        ⟨searchFailure ("Failed to parse JSON: " ++ jsonParseErrMsg ++ ". Raw response: " ++ strTake body 200) ts,
          [searchUrl (q.getD ("")) lim pg]⟩) := by
  obtain ⟨cs, hd⟩ := htmlDetect_head body h
  have hparse : jsonParse body = none := jsonParse_head_lt body cs hd
  refine ⟨hparse, ?_, ?_⟩
  · intro source st
    unfold handleApiResponse
    dsimp only
    rw [hparse]
  · intro q lim pg ts fetch st hq hf
    unfold apiSearch
    split
    · next h0 => rw [hq] at h0; simp at h0
    · dsimp only
      rw [hf]
      dsimp only
      rw [hparse]

/-- Witness for `html_body_parse_failure` at the concrete HTML page. -/
theorem html_body_parse_failure_witness :
    jsonParse htmlDocBody = none ∧
    apiSearch (some ("q")) ("20") ("1") htmlFetch ("T") =
      ⟨searchFailure ("Failed to parse JSON: " ++ jsonParseErrMsg ++ ". Raw response: " ++ strTake htmlDocBody 200) ("T"),
        [searchUrl ("q") ("20") ("1")]⟩ := by
  have hw := html_body_parse_failure htmlDocBody (by decide)
  exact ⟨hw.1, hw.2.2 (some ("q")) ("20") ("1") ("T") htmlFetch 200 (by decide) rfl⟩

/-! ### Claim C9 -/

theorem pathParam_ne_empty (p1 p2 path s : String) (h : pathParam p1 p2 path = some s) :
    s ≠ "" := by
  unfold pathParam at h
  split at h
  · split at h
    · next hg =>
      simp only [Bool.and_eq_true, decide_eq_true_eq] at hg
      injection h with h1
      subst h1
      exact hg.2
    · exact absurd h (by simp)
  · split at h
    · next hg =>
      simp only [Bool.and_eq_true, decide_eq_true_eq] at hg
      injection h with h1
      subst h1
      exact hg.2
    · exact absurd h (by simp)
  · exact absurd h (by simp)

theorem status500_ne_missing {b : Json} : (⟨500, b⟩ : HttpResponse) ≠ missingSymbol400 := by
  intro heq
  have hst := congrArg HttpResponse.status heq
  simp [missingSymbol400] at hst

theorem status200_ne_missing {b : Json} : (⟨200, b⟩ : HttpResponse) ≠ missingSymbol400 := by
  intro heq
  have hst := congrArg HttpResponse.status heq
  simp [missingSymbol400] at hst

theorem errBody_ne_missing {st : Nat} {e d t : String} :
    (⟨st, errBody e d t⟩ : HttpResponse) ≠ missingSymbol400 := by
  intro heq
  have hts := congrArg (fun r0 => getField r0.body ("timestamp")) heq
  simp [missingSymbol400, errBody, getField, lookupField] at hts

/-- Claim C9: the `:symbol` patterns of the router only match a non-empty path
segment, so every dispatched symbol is non-empty and the three
statement handlers can never answer their `Symbol parameter is
required` 400 — that branch is unreachable through the router. -/
theorem symbol_routes_nonempty (path s period ts : String) (fetch : Fetcher) :
    (pathParam ("api") ("balance-sheet") path = some s →
      s ≠ "" ∧ (apiBalanceSheet s period fetch ts).resp ≠ missingSymbol400) ∧
    (pathParam ("api") ("income-statement") path = some s →
      s ≠ "" ∧ (apiIncomeStatement s period fetch ts).resp ≠ missingSymbol400) ∧
    (pathParam ("api") ("cash-flow-statement") path = some s →
      s ≠ "" ∧ (apiCashFlowStatement s period fetch ts).resp ≠ missingSymbol400) := by
  refine ⟨?_, ?_, ?_⟩
  · intro hm
    have hs := pathParam_ne_empty _ _ _ _ hm
    refine ⟨hs, ?_⟩
    unfold apiBalanceSheet
    split
    · next h0 => exact absurd h0 hs
    · dsimp only
      repeat' split
      all_goals first
        | exact status500_ne_missing
        | exact status200_ne_missing
  · intro hm
    have hs := pathParam_ne_empty _ _ _ _ hm
    refine ⟨hs, ?_⟩
    unfold apiIncomeStatement
    split
    · next h0 => exact absurd h0 hs
    · dsimp only
      repeat' split
      all_goals first
        | exact status500_ne_missing
        | exact status200_ne_missing
        | exact errBody_ne_missing
  · intro hm
    have hs := pathParam_ne_empty _ _ _ _ hm
    refine ⟨hs, ?_⟩
    unfold apiCashFlowStatement
    split
    · next h0 => exact absurd h0 hs
    · dsimp only
      repeat' split
      all_goals first
        | exact status500_ne_missing
        | exact status200_ne_missing
        | exact errBody_ne_missing

/-- Witness for `symbol_routes_nonempty` at a concretely dispatched
path. -/
theorem symbol_routes_nonempty_witness :
    ("IBM" : String) ≠ "" ∧
    (apiBalanceSheet ("IBM") ("annual") netErrFetch ("T")).resp ≠ missingSymbol400 :=
  (symbol_routes_nonempty ("/api/balance-sheet/IBM") ("IBM") ("annual") ("T") netErrFetch).1 rfl

/-! ### Claim C10 -/

/-- Claim C10: on an upstream non-2xx status with a JSON body, the
income-statement and cash-flow handlers relay the own status of the upstream
code with the `error`/`details`/`timestamp` envelope whose `details` is
the serialized upstream body; their JSON-parse-failure responses are
500s additionally carrying `rawResponsePreview` = the first at most 200
characters of the raw body. -/
theorem statement_error_relay (sym period : String) (fetch : Fetcher) (ts : String)
    (hs : sym ≠ "") :
    (∀ r data, fetch 0 (incomeStatementUrl (sym.toUpper.trim) period) = FetchResult.success r →
      jsonParse r.body = some data → r.isOk = false →
      (apiIncomeStatement sym period fetch ts).resp =
        ⟨r.status, errBody ("API returned status " ++ toString r.status) (stringify data) ts⟩) ∧
    (∀ r, fetch 0 (incomeStatementUrl (sym.toUpper.trim) period) = FetchResult.success r →
      jsonParse r.body = none →
      (apiIncomeStatement sym period fetch ts).resp =
        ⟨500, Json.obj [("error", Json.str ("Failed to parse JSON response")),
          ("details", Json.str jsonParseErrMsg),
          ("rawResponsePreview", Json.str (strTake r.body 200)),
          ("timestamp", Json.str ts)]⟩ ∧
      (strTake r.body 200).length ≤ 200) ∧
    (∀ r data, fetch 0 (cashFlowUrl (sym.toUpper.trim) period) = FetchResult.success r →
      jsonParse r.body = some data → r.isOk = false →
      (apiCashFlowStatement sym period fetch ts).resp =
        ⟨r.status, errBody ("API returned status " ++ toString r.status) (stringify data) ts⟩) ∧
    (∀ r, fetch 0 (cashFlowUrl (sym.toUpper.trim) period) = FetchResult.success r →
      jsonParse r.body = none →
      (apiCashFlowStatement sym period fetch ts).resp =
        ⟨500, Json.obj [("error", Json.str ("Failed to parse JSON response")),
          ("details", Json.str jsonParseErrMsg),
          ("rawResponsePreview", Json.str (strTake r.body 200)),
          ("timestamp", Json.str ts)]⟩ ∧
      (strTake r.body 200).length ≤ 200) := by
  refine ⟨?_, ?_, ?_, ?_⟩
  · intro r data hf hp hok
    unfold apiIncomeStatement
    split
    · next h0 => exact absurd h0 hs
    · dsimp only
      rw [hf]
      dsimp only
      simp only [hp]
      rw [if_pos hok]
  · intro r hf hp
    unfold apiIncomeStatement
    split
    · next h0 => exact absurd h0 hs
    · dsimp only
      rw [hf]
      dsimp only
      simp only [hp]
      exact ⟨by trivial, strTake_length_le _ _⟩
  · intro r data hf hp hok
    unfold apiCashFlowStatement
    split
    · next h0 => exact absurd h0 hs
    · dsimp only
      rw [hf]
      dsimp only
      simp only [hp]
      rw [if_pos hok]
  · intro r hf hp
    unfold apiCashFlowStatement
    split
    · next h0 => exact absurd h0 hs
    · dsimp only
      rw [hf]
      dsimp only
      simp only [hp]
      exact ⟨by trivial, strTake_length_le _ _⟩

/-- Witness for `statement_error_relay`: a 404 upstream JSON answer is
relayed as a 404 with the serialized body as `details`. -/
theorem statement_error_relay_witness :
    (apiIncomeStatement ("ibm") ("annual") status404Fetch ("T")).resp =
      ⟨(404 : Nat), errBody ("API returned status " ++ toString (404 : Nat))
        (stringify (Json.obj [(("detail"), Json.str ("Not found"))])) ("T")⟩ := by
  have hw := statement_error_relay ("ibm") ("annual") status404Fetch ("T") (by decide)
  exact hw.1 ⟨404, ("\x7b\"detail\":\"Not found\"\x7d")⟩
    (Json.obj [(("detail"), Json.str ("Not found"))]) rfl rfl rfl
